import Mathlib

/-!
# Verification of rsysfetch against its specification

Shallow embedding of the rsysfetch terminal dashboard (Rust sources
`src/system_info.rs`, `src/app.rs`, `src/ui.rs`, `src/main.rs`) and proofs of
the specification's claims about it.

Modelling conventions:
* Rust `u64`/`u16`/`usize` values are embedded as `Nat`; the only narrowing
  conversion in the program, `f64 as u16`, is modelled explicitly (truncation
  toward zero, saturating at `u16::MAX = 65535`, as Rust defines the cast).
* `f64` arithmetic is modelled as exact rational arithmetic.  Every numeric
  fact proved below only exercises inputs on which the real `f64` computation
  is exact (integers below `2^53`, divisions by powers of two, and products
  that are exactly representable), so the idealisation is faithful on the
  inputs the theorems and counterexamples touch.
* Rust strings are embedded as Lean `String`s; byte indices of the macOS JSON
  scan become character indices (all markers involved are ASCII).
* Fallible effects (process spawning, system queries, environment variables)
  are passed in as an explicit environment record, `Option`-valued where the
  Rust API is fallible.
* A widget panic (ratatui's `Gauge::percent` asserts `percent <= 100`,
  "Percentage should be between 0 and 100 inclusively."; the assertion is
  active in release builds) is modelled as `Except.error`: a panicking draw
  produces no frame.
-/

namespace RSysfetch

/-! ## Formatting helpers (`src/system_info.rs`) -/

/-- `format_uptime` from `src/system_info.rs` (lines 87–99): split a seconds
count into days/hours/minutes and print the largest non-zero unit first;
seconds are discarded. -/
def format_uptime (seconds : Nat) : String :=
  let days := seconds / 86400
  let hours := (seconds % 86400) / 3600
  let minutes := (seconds % 3600) / 60
  if days > 0 then
    toString days ++ "d " ++ toString hours ++ "h " ++ toString minutes ++ "m"
  else if hours > 0 then
    toString hours ++ "h " ++ toString minutes ++ "m"
  else
    toString minutes ++ "m"

/-- The unit table of `format_bytes` (`const UNITS: &[&str]`). -/
def UNITS : List String := ["B", "KB", "MB", "GB", "TB"]

/-- The `while size >= 1024.0 && unit_index < UNITS.len() - 1` loop of
`format_bytes`, unrolled: after `k` divisions the current size is the exact
rational `bytes / 1024^k`, whose comparison with `1024` is
`1024^(k+1) ≤ bytes`; the loop stops at the first `k` where the comparison
fails, or at `k = 4 = UNITS.len() - 1`. -/
def unit_index (bytes : Nat) : Nat :=
  if bytes < 1024 then 0
  else if bytes < 1024 ^ 2 then 1
  else if bytes < 1024 ^ 3 then 2
  else if bytes < 1024 ^ 4 then 3
  else 4

/-- Rust's `format!("{:.1}", x)` on the exact nonneg rational `num / den`
(`den ≠ 0`): round to one decimal place, ties to even, and print as
`"<int>.<digit>"`. -/
def fmtFixed1 (num den : Nat) : String :=
  let t := num * 10
  let q := t / den
  let r := t % den
  let rounded :=
    if den < 2 * r then q + 1
    else if 2 * r < den then q
    else if q % 2 = 0 then q else q + 1
  toString (rounded / 10) ++ "." ++ toString (rounded % 10)

/-- `format_bytes` from `src/system_info.rs` (lines 102–117): repeatedly divide
by 1024 (exact, tracked as the rational `bytes / 1024^k` via `unit_index`);
the byte tier prints the integer with no decimal, every other tier prints one
decimal digit. -/
def format_bytes (bytes : Nat) : String :=
  let k := unit_index bytes
  if k = 0 then toString bytes ++ " " ++ UNITS.getD 0 ""
  else fmtFixed1 bytes (1024 ^ k) ++ " " ++ UNITS.getD k ""

/-! ## The snapshot collector (`src/system_info.rs`) -/

/-- The `SystemInfo` struct of `src/system_info.rs` (lines 9–24). -/
structure SystemInfo where
  os_name : String
  os_version : String
  kernel_version : String
  hostname : String
  username : String
  uptime : String
  cpu_model : String
  cpu_cores : Nat
  memory_total : Nat
  memory_used : Nat
  disk_total : Nat
  disk_used : Nat
  gpu_info : String
  local_ip : String
deriving Repr, DecidableEq

/-- The compile-time `cfg!(target_os = ...)` dispatch of `get_gpu_info`. -/
inductive TargetOS where
  | windows
  | linux
  | macos
  | other
deriving Repr, DecidableEq

/-- Rust `str::trim_start_matches` (strip the pattern from the front as long
as it matches).  Fuel-based recursion: each successful strip removes
`pat.length ≥ 1` characters, so `s.length` rounds of fuel are enough, and the
one call site passes the non-empty pattern `"Name="`. -/
def trimStartMatchesAux (pat : List Char) : Nat → List Char → List Char
  | 0, s => s
  | fuel + 1, s =>
    if pat ≠ [] ∧ pat.isPrefixOf s then trimStartMatchesAux pat fuel (s.drop pat.length)
    else s

/-- Rust `str::trim_start_matches` on strings. -/
def trim_start_matches (s pat : String) : String :=
  String.mk (trimStartMatchesAux pat.toList s.toList.length s.toList)

/-- Rust `str::trim_end_matches` (strip the pattern from the back as long as
it matches), via reversal. -/
def trim_end_matches (s pat : String) : String :=
  String.mk ((trimStartMatchesAux pat.toList.reverse s.toList.length s.toList.reverse).reverse)

/-- Rust `str::lines`: split on `'\n'`, dropping a trailing `'\r'` from each
line and ignoring a final empty segment left by a trailing newline. -/
def rustLines (s : String) : List String :=
  let segs := s.splitOn "\n"
  let segs := if segs.getLast? = some "" then segs.dropLast else segs
  segs.map (fun l => if l.endsWith "\r" then l.dropRight 1 else l)

/-- Rust `str::find(pat)`: index of the first occurrence of `pat` (character
index; every marker searched for in this program is ASCII, so it agrees with
Rust's byte index on the inputs that matter). -/
def findSubIdx (pat : List Char) : List Char → Option Nat
  | [] => if pat = [] then some 0 else none
  | c :: rest =>
    if pat.isPrefixOf (c :: rest) then some 0
    else (findSubIdx pat rest).map (· + 1)

/-- Rust `str::contains` for a substring pattern. -/
def containsSub (s pat : String) : Bool :=
  (findSubIdx pat.toList s.toList).isSome

/-- `get_gpu_info_windows` (`src/system_info.rs` lines 160–182): run
`wmic path win32_VideoController get name /format:value` and scan stdout for
the first line of the form `Name=<nonempty>`; `stdout = none` models a
process-launch failure (`Err(_)`). -/
def get_gpu_info_windows (stdout : Option String) : String :=
  match stdout with
  | none => "Unknown GPU"
  | some out =>
    match (rustLines out).findSome? (fun line =>
        if line.startsWith "Name=" ∧ ¬(trim_end_matches line "Name=").isEmpty then
          some ((trim_start_matches line "Name=").trim)
        else none) with
    | some name => name
    | none => "Unknown GPU"

/-- `get_gpu_info_linux` (`src/system_info.rs` lines 185–203): run
`lspci -mm` and scan stdout for a VGA/3D controller line, extracting the
quoted vendor and device fields (`parts[3]` and `parts[5]` of the
`split('"')`). -/
def get_gpu_info_linux (stdout : Option String) : String :=
  match stdout with
  | none => "Unknown GPU"
  | some out =>
    match (rustLines out).findSome? (fun line =>
        if containsSub line "VGA compatible controller" ∨ containsSub line "3D controller" then
          let parts := line.splitOn "\""
          if 6 ≤ parts.length then
            some (parts.getD 3 "" ++ " " ++ parts.getD 5 "")
          else none
        else none) with
    | some name => name
    | none => "Unknown GPU"

/-- `get_gpu_info_macos` (`src/system_info.rs` lines 206–224): run
`system_profiler SPDisplaysDataType -json` and scan stdout for the first
`"_name" : "` marker, returning the text up to the closing quote. -/
def get_gpu_info_macos (stdout : Option String) : String :=
  match stdout with
  | none => "Unknown GPU"
  | some out =>
    let chars := out.toList
    match findSubIdx ("\"_name\" : \"".toList) chars with
    | some start =>
      let rest := chars.drop (start + 11)
      match rest.findIdx? (· = '"') with
      | some endIdx => String.mk (rest.take endIdx)
      | none => "Unknown GPU"
    | none => "Unknown GPU"

/-- `get_gpu_info` (`src/system_info.rs` lines 146–157): dispatch on the host
OS; `stdout` is the (optional) standard output of the one platform probe
command. -/
def get_gpu_info (os : TargetOS) (stdout : Option String) : String :=
  match os with
  | .windows => get_gpu_info_windows stdout
  | .linux => get_gpu_info_linux stdout
  | .macos => get_gpu_info_macos stdout
  | .other => "Unknown GPU"

/-- `get_local_ip` (`src/system_info.rs` lines 227–232): `local_ip()` already
stringified on success, `none` on error. -/
def get_local_ip (res : Option String) : String :=
  match res with
  | some ip => ip
  | none => "Unknown IP"

/-- The host environment queried by `SystemInfo::collect`: each fallible
system query of `src/system_info.rs` (lines 28–65) as an `Option`-valued
field, plus the infallible numeric queries. -/
structure Env where
  name : Option String
  os_version : Option String
  kernel_version : Option String
  host_name : Option String
  var_user : Option String
  var_username : Option String
  uptime : Nat
  cpu_brands : List String
  total_memory : Nat
  used_memory : Nat
  target_os : TargetOS
  gpu_stdout : Option String
  local_ip : Option String
deriving Repr

/-- `SystemInfo::collect` (`src/system_info.rs` lines 28–83): every sub-query
individually guarded with its fallback, disk fields hard-coded to zero, and
the result always returned through the `Ok` branch. -/
def collect (env : Env) : Except String SystemInfo :=
  Except.ok
    { os_name := env.name.getD "Unknown"
      os_version := env.os_version.getD "Unknown"
      kernel_version := env.kernel_version.getD "Unknown"
      hostname := env.host_name.getD "Unknown"
      username := (env.var_user.or env.var_username).getD "Unknown"
      uptime := format_uptime env.uptime
      cpu_model := (env.cpu_brands.head?).getD "Unknown"
      cpu_cores := env.cpu_brands.length
      memory_total := env.total_memory
      memory_used := env.used_memory
      disk_total := 0
      disk_used := 0
      gpu_info := get_gpu_info env.target_os env.gpu_stdout
      local_ip := get_local_ip env.local_ip }

/-! ## The layout/render engine (`src/ui.rs`) -/

/-- The three layout strategies of `ui::draw`. -/
inductive LayoutMode where
  | compact
  | narrow
  | wide
deriving Repr, DecidableEq

/-- The mode selection of `ui::draw` (`src/ui.rs` lines 13–72): compact when
`size.height < 20 || size.width < 60`, otherwise narrow when
`size.width < 100`, otherwise wide. -/
def layout_mode (width height : Nat) : LayoutMode :=
  if height < 20 ∨ width < 60 then .compact
  else if width < 100 then .narrow
  else .wide

/-- Rust `expr as u16` on a nonneg `f64`: truncate toward zero (already done
by the caller's exact natural-number division) and saturate at `u16::MAX`. -/
def as_u16 (q : Nat) : Nat := Nat.min q 65535

/-- The `memory_percent` computation of `draw_memory_info` (`src/ui.rs` lines
258–262): `(used as f64 / total as f64 * 100.0) as u16` when `total > 0`,
else 0.  The `f64` quotient-then-product is modelled as the exact rational
`used * 100 / total`, truncated toward zero by the cast. -/
def memory_percent (info : SystemInfo) : Nat :=
  if 0 < info.memory_total then as_u16 (info.memory_used * 100 / info.memory_total)
  else 0

/-- The `disk_percent` computation of `draw_disk_info` (`src/ui.rs` lines
377–381), identical in shape to `memory_percent`. -/
def disk_percent (info : SystemInfo) : Nat :=
  if 0 < info.disk_total then as_u16 (info.disk_used * 100 / info.disk_total)
  else 0

/-- The draw operations a panel emits: a text paragraph (with its alignment),
a gauge at a percentage, and a bordered block with a title. -/
inductive DrawOp where
  | text (s : String) (centered : Bool)
  | gauge (percent : Nat)
  | border (title : String)
deriving Repr, DecidableEq

deriving instance DecidableEq for Except

/-- The assertion message of ratatui's `Gauge::percent`. -/
def gaugeAssertMsg : String := "Percentage should be between 0 and 100 inclusively."

/-- ratatui's `Gauge::percent(p)` builder: asserts `p <= 100` (panicking with
`gaugeAssertMsg` otherwise, modelled as `Except.error`) and otherwise yields
the gauge widget. -/
def gaugeWidget (percent : Nat) : Except String DrawOp :=
  if percent ≤ 100 then Except.ok (DrawOp.gauge percent)
  else Except.error gaugeAssertMsg

/-- The `"{used} / {total} ({percent}%)"` text of the memory panel. -/
def memory_text (info : SystemInfo) : String :=
  format_bytes info.memory_used ++ " / " ++ format_bytes info.memory_total
    ++ " (" ++ toString (memory_percent info) ++ "%)"

/-- The `"{used} / {total} ({percent}%)"` text of the disk panel. -/
def disk_text (info : SystemInfo) : String :=
  format_bytes info.disk_used ++ " / " ++ format_bytes info.disk_total
    ++ " (" ++ toString (disk_percent info) ++ "%)"

/-- `draw_memory_info` (`src/ui.rs` lines 253–319): interior height is
`area.height.saturating_sub(2)`; with ≥ 3 interior rows it renders the usage
text then builds the gauge (whose builder asserts `percent ≤ 100`), with
fewer it renders only the centered text; the titled border is drawn last. -/
def draw_memory_info (areaHeight : Nat) (info : SystemInfo) :
    Except String (List DrawOp) :=
  let percent := memory_percent info
  let available_height := areaHeight - 2
  if 3 ≤ available_height then
    match gaugeWidget percent with
    | Except.ok g =>
      Except.ok [DrawOp.text (memory_text info) false, g, DrawOp.border "💾 Memory"]
    | Except.error e => Except.error e
  else
    Except.ok [DrawOp.text (memory_text info) true, DrawOp.border "💾 Memory"]

/-- `draw_disk_info` (`src/ui.rs` lines 372–440): identical structure to
`draw_memory_info` over the disk fields. -/
def draw_disk_info (areaHeight : Nat) (info : SystemInfo) :
    Except String (List DrawOp) :=
  let percent := disk_percent info
  let available_height := areaHeight - 2
  if 3 ≤ available_height then
    match gaugeWidget percent with
    | Except.ok g =>
      Except.ok [DrawOp.text (disk_text info) false, g, DrawOp.border "💿 Disk"]
    | Except.error e => Except.error e
  else
    Except.ok [DrawOp.text (disk_text info) true, DrawOp.border "💿 Disk"]

/-- The five hardware sub-panels, in the order `draw_hardware_info` draws
them into `chunks[0] .. chunks[4]`. -/
inductive Panel where
  | cpu
  | memory
  | gpu
  | network
  | disk
deriving Repr, DecidableEq

/-- ratatui layout constraints, as used by `draw_hardware_info`:
`Constraint::Length(n)` pins a band to `n` rows, `Constraint::Percentage(p)`
takes `p`% of the region, `Constraint::Min(n)` takes all remaining space but
at least `n` rows. -/
inductive Constraint where
  | length (n : Nat)
  | percentage (p : Nat)
  | min (n : Nat)
deriving Repr, DecidableEq

/-- The sub-panel order of `draw_hardware_info` (`src/ui.rs` lines 205–218). -/
def hardware_panels : List Panel :=
  [Panel.cpu, Panel.memory, Panel.gpu, Panel.network, Panel.disk]

/-- The constraint selection of `draw_hardware_info` (`src/ui.rs` lines
168–194): interior height is `area.height.saturating_sub(2)`; with room for
five panels of three rows (`available_height >= 5 * 3`) the fixed budgets are
used, with the disk panel's `Min(3)` absorbing the remaining space, otherwise
the proportional percentages. -/
def hardware_constraints (areaHeight : Nat) : List Constraint :=
  let available_height := areaHeight - 2
  let min_section_height := 3
  let sections := 5
  if sections * min_section_height ≤ available_height then
    [Constraint.length 4, Constraint.length 4, Constraint.length 3,
     Constraint.length 3, Constraint.min 3]
  else
    [Constraint.percentage 20, Constraint.percentage 25, Constraint.percentage 15,
     Constraint.percentage 15, Constraint.percentage 25]

/-! ## The driver loop (`src/main.rs`, `src/app.rs`) -/

/-- The key codes distinguished by `run_app`: the `Char(c)` and `Esc`
patterns it matches on, and a collective variant for every other key. -/
inductive KeyCode where
  | char (c : Char)
  | esc
  | otherKey
deriving Repr, DecidableEq

/-- The terminal events of the loop: `Event::Key` is handled, every other
event (mouse, resize, …) falls through the `if let`. -/
inductive Event where
  | key (code : KeyCode)
  | otherEvent
deriving Repr, DecidableEq

/-- The `App` state (`src/app.rs` lines 6–9). -/
structure App where
  system_info : SystemInfo
  should_quit : Bool
deriving Repr, DecidableEq

/-- One iteration's event handling in `run_app` (`src/main.rs` lines 50–57):
the or-pattern `KeyCode::Char('q') | KeyCode::Esc` sets `should_quit` (the
`Char('q')` pattern is the decision `c = 'q'` on the carried character);
the `_` arm and non-key events leave the state untouched. -/
def handle_event (app : App) (ev : Event) : App :=
  match ev with
  | Event.key code =>
    match code with
    | KeyCode.char c => if c = 'q' then { app with should_quit := true } else app
    | KeyCode.esc => { app with should_quit := true }
    | KeyCode.otherKey => app
  | Event.otherEvent => app

/-- The `run_app` loop (`src/main.rs` lines 46–64) over a stream of incoming
events: draw a frame, block for the next event, handle it, and exit when
`should_quit` is set.  `none` means the event stream was exhausted with the
loop still blocked waiting. -/
def run_app (app : App) : List Event → Option App
  | [] => none
  | ev :: rest =>
    let app' := handle_event app ev
    if app'.should_quit then some app' else run_app app' rest

/-! ## Shared concrete inputs for witnesses and counterexamples -/

/-- A snapshot with the given memory and disk counters (the text fields play
no role in the numeric claims). -/
def mkInfo (memTotal memUsed diskTotal diskUsed : Nat) : SystemInfo :=
  { os_name := "Linux"
    os_version := "6.1"
    kernel_version := "6.1.0"
    hostname := "host"
    username := "user"
    uptime := "1m"
    cpu_model := "cpu"
    cpu_cores := 8
    memory_total := memTotal
    memory_used := memUsed
    disk_total := diskTotal
    disk_used := diskUsed
    gpu_info := "gpu"
    local_ip := "127.0.0.1" }

/-- A freshly started app that has not been asked to quit. -/
def app0 : App :=
  { system_info := mkInfo 8 4 0 0, should_quit := false }

/-- A host on which every fallible query fails. -/
def envAllFail : Env :=
  { name := none
    os_version := none
    kernel_version := none
    host_name := none
    var_user := none
    var_username := none
    uptime := 0
    cpu_brands := []
    total_memory := 0
    used_memory := 0
    target_os := TargetOS.linux
    gpu_stdout := none
    local_ip := none }

/-! ## Helper lemmas -/

/-- `fmtFixed1` always prints an integer part, a dot, and one digit. -/
theorem fmtFixed1_shape (num den : Nat) :
    ∃ n d : Nat, d < 10 ∧ fmtFixed1 num den = toString n ++ "." ++ toString d :=
  ⟨_, _, Nat.mod_lt _ (by omega), rfl⟩

/-- Reassociating a unit suffix onto a formatted number. -/
theorem append_space (x u su : String) (h : " " ++ u = su) :
    x ++ " " ++ u = x ++ su := by
  rw [String.append_assoc, h]

/-! ## Claims -/

/-- C1: Layout mode selection is a pure function of the terminal dimensions:
compact exactly when `height < 20` or `width < 60`; otherwise narrow exactly
when `width < 100`; otherwise wide.  The boundary values `height = 20`,
`width = 60` and `width = 100` select the non-compact / non-narrow branch. -/
theorem layout_mode_selection (width height : Nat) :
    (layout_mode width height = LayoutMode.compact ↔ height < 20 ∨ width < 60) ∧
    (layout_mode width height = LayoutMode.narrow ↔
      ¬(height < 20 ∨ width < 60) ∧ width < 100) ∧
    (layout_mode width height = LayoutMode.wide ↔
      ¬(height < 20 ∨ width < 60) ∧ 100 ≤ width) ∧
    layout_mode 60 20 = LayoutMode.narrow ∧
    layout_mode 100 20 = LayoutMode.wide := by
  refine ⟨?_, ?_, ?_, by decide, by decide⟩ <;>
    · unfold layout_mode
      split_ifs with h1 h2 <;> simp_all

/-- C7: `format_bytes` prints every count below 1024 as an integer number of
bytes; every count in `[1024, 1024^2)` with exactly one decimal digit and
unit KB; `1024 ↦ "1.0 KB"`, `1048576 ↦ "1.0 MB"`, `1073741824 ↦ "1.0 GB"`;
and the unit sequence stops at TB (every count from `1024^4` up is printed
in TB). -/
theorem format_bytes_spec :
    (∀ b : Nat, b < 1024 → format_bytes b = toString b ++ " B") ∧
    (∀ b : Nat, 1024 ≤ b → b < 1024 ^ 2 →
      ∃ n d : Nat, d < 10 ∧
        format_bytes b = toString n ++ "." ++ toString d ++ " KB") ∧
    format_bytes 1024 = "1.0 KB" ∧
    format_bytes 1048576 = "1.0 MB" ∧
    format_bytes 1073741824 = "1.0 GB" ∧
    (∀ b : Nat, 1024 ^ 4 ≤ b → format_bytes b = fmtFixed1 b (1024 ^ 4) ++ " TB") := by
  refine ⟨?_, ?_, by decide, by decide, by decide, ?_⟩
  · intro b hb
    have h0 : unit_index b = 0 := by unfold unit_index; simp [hb]
    unfold format_bytes
    rw [h0, if_pos rfl]
    exact append_space _ "B" " B" (by decide)
  · intro b hb1 hb2
    have h1 : unit_index b = 1 := by
      unfold unit_index
      rw [if_neg (by omega), if_pos hb2]
    obtain ⟨n, d, hd, hs⟩ := fmtFixed1_shape b (1024 ^ 1)
    refine ⟨n, d, hd, ?_⟩
    unfold format_bytes
    rw [h1, if_neg (by omega), hs]
    exact append_space _ "KB" " KB" (by decide)
  · intro b hb
    have p4 : (1024 : ℕ) ^ 4 = 1099511627776 := by norm_num
    have h4 : unit_index b = 4 := by
      have p2 : (1024 : ℕ) ^ 2 = 1048576 := by norm_num
      have p3 : (1024 : ℕ) ^ 3 = 1073741824 := by norm_num
      rw [p4] at hb
      unfold unit_index
      rw [p2, p3, p4]
      split_ifs <;> omega
    unfold format_bytes
    rw [h4, if_neg (by omega)]
    exact append_space _ "TB" " TB" (by decide)

/-- Witness for C7 at concrete counts: 500 bytes, 2048 bytes (KB tier) and
one full TB. -/
theorem format_bytes_spec_witness :
    format_bytes 500 = toString 500 ++ " B" ∧
    (∃ n d : Nat, d < 10 ∧
      format_bytes 2048 = toString n ++ "." ++ toString d ++ " KB") ∧
    format_bytes 1099511627776 = fmtFixed1 1099511627776 (1024 ^ 4) ++ " TB" :=
  ⟨format_bytes_spec.1 500 (by decide),
   format_bytes_spec.2.1 2048 (by decide) (by decide),
   format_bytes_spec.2.2.2.2.2 1099511627776 (by norm_num)⟩

/-- C8: `format_uptime` splits the seconds count into days, hours and
minutes, prints the largest non-zero unit first and always discards the
seconds; `61 ↦ "1m"`, `3661 ↦ "1h 1m"`, `90061 ↦ "1d 1h 1m"`. -/
theorem format_uptime_spec :
    (∀ s : Nat,
      format_uptime s =
        if 0 < s / 86400 then
          toString (s / 86400) ++ "d " ++ toString (s % 86400 / 3600) ++ "h "
            ++ toString (s % 3600 / 60) ++ "m"
        else if 0 < s % 86400 / 3600 then
          toString (s % 86400 / 3600) ++ "h " ++ toString (s % 3600 / 60) ++ "m"
        else
          toString (s % 3600 / 60) ++ "m") ∧
    format_uptime 61 = "1m" ∧
    format_uptime 3661 = "1h 1m" ∧
    format_uptime 90061 = "1d 1h 1m" := by
  refine ⟨fun s => rfl, by decide, by decide, by decide⟩

/-- C3: the usage percentage of the memory and disk panels is
`used / total × 100` truncated toward zero (the `as u16` cast keeps values up
to `u16::MAX`), and a zero total — always the case for disk, whose fields
`collect` hard-codes to zero — yields percentage 0 with no division by
zero. -/
theorem usage_percent_division_safety (info : SystemInfo) :
    (info.memory_total = 0 → memory_percent info = 0) ∧
    (0 < info.memory_total → info.memory_used * 100 / info.memory_total ≤ 65535 →
      memory_percent info = info.memory_used * 100 / info.memory_total) ∧
    (info.disk_total = 0 → disk_percent info = 0) ∧
    (0 < info.disk_total → info.disk_used * 100 / info.disk_total ≤ 65535 →
      disk_percent info = info.disk_used * 100 / info.disk_total) ∧
    (∀ env : Env, ∃ s : SystemInfo,
      collect env = Except.ok s ∧ s.disk_total = 0 ∧ disk_percent s = 0) := by
  refine ⟨?_, ?_, ?_, ?_, fun env => ⟨_, rfl, rfl, rfl⟩⟩
  · intro h; simp [memory_percent, h]
  · intro h hle; simp [memory_percent, h, as_u16, Nat.min_eq_left hle]
  · intro h; simp [disk_percent, h]
  · intro h hle; simp [disk_percent, h, as_u16, Nat.min_eq_left hle]

/-- Witness for C3 at concrete snapshots: a zero memory total, a 4-of-8
memory load, the zero disk total, a 5-of-10 disk load, and the collector's
all-failing host. -/
theorem usage_percent_division_safety_witness :
    memory_percent (mkInfo 0 7 0 0) = 0 ∧
    memory_percent (mkInfo 8 4 0 0) = 4 * 100 / 8 ∧
    disk_percent (mkInfo 8 4 0 9) = 0 ∧
    disk_percent (mkInfo 8 4 10 5) = 5 * 100 / 10 ∧
    (∃ s : SystemInfo, collect envAllFail = Except.ok s ∧
      s.disk_total = 0 ∧ disk_percent s = 0) :=
  ⟨(usage_percent_division_safety (mkInfo 0 7 0 0)).1 rfl,
   (usage_percent_division_safety (mkInfo 8 4 0 0)).2.1 (by decide) (by decide),
   (usage_percent_division_safety (mkInfo 8 4 0 9)).2.2.1 rfl,
   (usage_percent_division_safety (mkInfo 8 4 10 5)).2.2.2.1 (by decide) (by decide),
   (usage_percent_division_safety (mkInfo 0 0 0 0)).2.2.2.2 envAllFail⟩

/-- C2 (evaluation at the failing input): a snapshot violating the
`memory_used ≤ memory_total` invariant with a positive total gives a
percentage above 100, and the memory panel (and identically the disk panel)
then panics in ratatui's `Gauge::percent` assertion instead of producing a
frame — the renderer does crash, contrary to the claim. -/
theorem memory_gauge_invariant_violation_panics :
    memory_percent (mkInfo 1 2 0 0) = 200 ∧
    draw_memory_info 5 (mkInfo 1 2 0 0) = Except.error gaugeAssertMsg ∧
    draw_disk_info 5 (mkInfo 0 0 1 2) = Except.error gaugeAssertMsg := by
  refine ⟨by decide, by decide, by decide⟩

/-- Counterexample for C4 as stated: at interior height `5 - 2 = 3 ≥ 3` the
disk panel of a snapshot with `disk_used > disk_total > 0` renders neither
the text line nor the bar — the gauge builder's assertion panics instead. -/
theorem gauge_degradation_counterexample :
    3 ≤ 5 - 2 ∧
    draw_disk_info 5 (mkInfo 8 4 1 2) = Except.error gaugeAssertMsg ∧
    draw_disk_info 5 (mkInfo 8 4 1 2) ≠
      Except.ok [DrawOp.text (disk_text (mkInfo 8 4 1 2)) false,
        DrawOp.gauge (disk_percent (mkInfo 8 4 1 2)), DrawOp.border "💿 Disk"] := by
  refine ⟨by decide, by decide, by decide⟩

/-- C4 (amended): for every panel region, if the interior height (region
height minus 2) is ≥ 3 and the computed percentage is at most 100 (in
particular whenever `used ≤ total`), both the usage text line and the
proportional bar are drawn; if the interior height is < 3, only the centered
text line is drawn, for every snapshot, without error. -/
theorem gauge_degradation (areaHeight : Nat) (info : SystemInfo) :
    (3 ≤ areaHeight - 2 → memory_percent info ≤ 100 →
      draw_memory_info areaHeight info =
        Except.ok [DrawOp.text (memory_text info) false,
          DrawOp.gauge (memory_percent info), DrawOp.border "💾 Memory"]) ∧
    (areaHeight - 2 < 3 →
      draw_memory_info areaHeight info =
        Except.ok [DrawOp.text (memory_text info) true, DrawOp.border "💾 Memory"]) ∧
    (3 ≤ areaHeight - 2 → disk_percent info ≤ 100 →
      draw_disk_info areaHeight info =
        Except.ok [DrawOp.text (disk_text info) false,
          DrawOp.gauge (disk_percent info), DrawOp.border "💿 Disk"]) ∧
    (areaHeight - 2 < 3 →
      draw_disk_info areaHeight info =
        Except.ok [DrawOp.text (disk_text info) true, DrawOp.border "💿 Disk"]) := by
  refine ⟨?_, ?_, ?_, ?_⟩
  · intro h hp
    simp [draw_memory_info, gaugeWidget, h, hp]
  · intro h
    have h' : ¬ 3 ≤ areaHeight - 2 := by omega
    simp [draw_memory_info, h']
  · intro h hp
    simp [draw_disk_info, gaugeWidget, h, hp]
  · intro h
    have h' : ¬ 3 ≤ areaHeight - 2 := by omega
    simp [draw_disk_info, h']

/-- Witness for C4 (amended) at a 4-of-8 snapshot: interior height 3 draws
text plus gauge, interior height 0 (region height 2) draws the centered text
only. -/
theorem gauge_degradation_witness :
    draw_memory_info 5 (mkInfo 8 4 0 0) =
      Except.ok [DrawOp.text (memory_text (mkInfo 8 4 0 0)) false,
        DrawOp.gauge (memory_percent (mkInfo 8 4 0 0)), DrawOp.border "💾 Memory"] ∧
    draw_memory_info 2 (mkInfo 8 4 0 0) =
      Except.ok [DrawOp.text (memory_text (mkInfo 8 4 0 0)) true,
        DrawOp.border "💾 Memory"] ∧
    draw_disk_info 5 (mkInfo 8 4 0 0) =
      Except.ok [DrawOp.text (disk_text (mkInfo 8 4 0 0)) false,
        DrawOp.gauge (disk_percent (mkInfo 8 4 0 0)), DrawOp.border "💿 Disk"] ∧
    draw_disk_info 2 (mkInfo 8 4 0 0) =
      Except.ok [DrawOp.text (disk_text (mkInfo 8 4 0 0)) true,
        DrawOp.border "💿 Disk"] :=
  ⟨(gauge_degradation 5 (mkInfo 8 4 0 0)).1 (by decide) (by decide),
   (gauge_degradation 2 (mkInfo 8 4 0 0)).2.1 (by decide),
   (gauge_degradation 5 (mkInfo 8 4 0 0)).2.2.1 (by decide) (by decide),
   (gauge_degradation 2 (mkInfo 8 4 0 0)).2.2.2 (by decide)⟩

/-- C5: the hardware-info region is split into CPU, memory, GPU, network,
disk in that fixed order; with interior height (region height minus 2) at
least `5 × 3 = 15` the fixed budgets CPU 4, memory 4, GPU 3, network 3 are
used with the disk's `Min 3` absorbing the remaining space, otherwise the
proportional percentages 20/25/15/15/25 of the interior height. -/
theorem hardware_info_allocation (areaHeight : Nat) :
    hardware_panels = [Panel.cpu, Panel.memory, Panel.gpu, Panel.network, Panel.disk] ∧
    (15 ≤ areaHeight - 2 →
      hardware_constraints areaHeight =
        [Constraint.length 4, Constraint.length 4, Constraint.length 3,
         Constraint.length 3, Constraint.min 3]) ∧
    (areaHeight - 2 < 15 →
      hardware_constraints areaHeight =
        [Constraint.percentage 20, Constraint.percentage 25, Constraint.percentage 15,
         Constraint.percentage 15, Constraint.percentage 25]) := by
  refine ⟨rfl, ?_, ?_⟩
  · intro h
    have h' : 5 * 3 ≤ areaHeight - 2 := by omega
    simp [hardware_constraints, h']
  · intro h
    have h' : ¬ 5 * 3 ≤ areaHeight - 2 := by omega
    simp [hardware_constraints, h']

/-- Witness for C5: a 20-row region (interior 18) gets the fixed budgets, a
10-row region (interior 8) the percentages. -/
theorem hardware_info_allocation_witness :
    hardware_constraints 20 =
      [Constraint.length 4, Constraint.length 4, Constraint.length 3,
       Constraint.length 3, Constraint.min 3] ∧
    hardware_constraints 10 =
      [Constraint.percentage 20, Constraint.percentage 25, Constraint.percentage 15,
       Constraint.percentage 15, Constraint.percentage 25] :=
  ⟨(hardware_info_allocation 20).2.1 (by decide),
   (hardware_info_allocation 10).2.2 (by decide)⟩

/-- C6: `collect` always returns through the `Ok` branch, and every
individually failed sub-query is replaced by its documented fallback —
`"Unknown"` for OS name/version, kernel, hostname, username and CPU model,
`"Unknown GPU"` for the GPU probe, `"Unknown IP"` for the local IP — while
the disk fields are zero unconditionally. -/
theorem collect_never_fails (env : Env) :
    ∃ s : SystemInfo, collect env = Except.ok s ∧
      (env.name = none → s.os_name = "Unknown") ∧
      (env.os_version = none → s.os_version = "Unknown") ∧
      (env.kernel_version = none → s.kernel_version = "Unknown") ∧
      (env.host_name = none → s.hostname = "Unknown") ∧
      (env.var_user = none → env.var_username = none → s.username = "Unknown") ∧
      (env.cpu_brands = [] → s.cpu_model = "Unknown") ∧
      (env.gpu_stdout = none → s.gpu_info = "Unknown GPU") ∧
      (env.local_ip = none → s.local_ip = "Unknown IP") ∧
      s.disk_total = 0 ∧ s.disk_used = 0 := by
  refine ⟨_, rfl, ?_, ?_, ?_, ?_, ?_, ?_, ?_, ?_, rfl, rfl⟩
  · intro h; simp [h]
  · intro h; simp [h]
  · intro h; simp [h]
  · intro h; simp [h]
  · intro h1 h2; simp [h1, h2]
  · intro h; simp [h]
  · intro h; rw [h]; cases env.target_os <;> rfl
  · intro h; rw [h]; rfl

/-- Witness for C6: on a host where every query fails, the snapshot is still
`Ok` and carries exactly the fallback literals. -/
theorem collect_never_fails_witness :
    ∃ s : SystemInfo, collect envAllFail = Except.ok s ∧
      (envAllFail.name = none → s.os_name = "Unknown") ∧
      (envAllFail.os_version = none → s.os_version = "Unknown") ∧
      (envAllFail.kernel_version = none → s.kernel_version = "Unknown") ∧
      (envAllFail.host_name = none → s.hostname = "Unknown") ∧
      (envAllFail.var_user = none → envAllFail.var_username = none →
        s.username = "Unknown") ∧
      (envAllFail.cpu_brands = [] → s.cpu_model = "Unknown") ∧
      (envAllFail.gpu_stdout = none → s.gpu_info = "Unknown GPU") ∧
      (envAllFail.local_ip = none → s.local_ip = "Unknown IP") ∧
      s.disk_total = 0 ∧ s.disk_used = 0 :=
  collect_never_fails envAllFail

/-- C9: in the event loop, a key event for `'q'` or the escape key sets the
quit flag and terminates the loop, and every other key event leaves the
application state untouched while the loop continues. -/
theorem quit_keys_only (app : App) (rest : List Event)
    (hq : app.should_quit = false) :
    run_app app (Event.key (KeyCode.char 'q') :: rest) =
      some { app with should_quit := true } ∧
    run_app app (Event.key KeyCode.esc :: rest) =
      some { app with should_quit := true } ∧
    (∀ c : Char, c ≠ 'q' →
      handle_event app (Event.key (KeyCode.char c)) = app ∧
      run_app app (Event.key (KeyCode.char c) :: rest) = run_app app rest) ∧
    handle_event app (Event.key KeyCode.otherKey) = app ∧
    run_app app (Event.key KeyCode.otherKey :: rest) = run_app app rest := by
  refine ⟨?_, ?_, ?_, ?_, ?_⟩
  · simp [run_app, handle_event]
  · simp [run_app, handle_event]
  · intro c hc
    exact ⟨by simp [handle_event, hc], by simp [run_app, handle_event, hc, hq]⟩
  · simp [handle_event]
  · simp [run_app, handle_event, hq]

/-- Witness for C9 at a concrete non-quitting app: `'q'` terminates the loop
at once, and the key `'x'` leaves the state untouched with the loop moving
on. -/
theorem quit_keys_only_witness :
    run_app app0 (Event.key (KeyCode.char 'q') :: []) =
      some { app0 with should_quit := true } ∧
    run_app app0 (Event.key KeyCode.esc :: []) =
      some { app0 with should_quit := true } ∧
    (∀ c : Char, c ≠ 'q' →
      handle_event app0 (Event.key (KeyCode.char c)) = app0 ∧
      run_app app0 (Event.key (KeyCode.char c) :: []) = run_app app0 []) ∧
    handle_event app0 (Event.key KeyCode.otherKey) = app0 ∧
    run_app app0 (Event.key KeyCode.otherKey :: []) = run_app app0 [] :=
  quit_keys_only app0 [] rfl

/-- C10: `format_bytes` selects the unit before rounding the mantissa, so
just below the MB boundary the output stays in KB and the printed number
reaches 1024.0: `format_bytes 1048575 = "1024.0 KB"`, not `"1.0 MB"`. -/
theorem format_bytes_boundary_no_rollover :
    format_bytes 1048575 = "1024.0 KB" ∧ format_bytes 1048575 ≠ "1.0 MB" := by
  decide

end RSysfetch
